import Mathlib

/-!
Verification of the Supply Chain Allocation & Policy Engine
(CogniHaka, InventoryOptimizer component).

The source is a TypeScript/React component.  The computational core is
embedded shallowly:

* JavaScript numbers are modelled as `JsNum := Option ℚ`: `some q` is a
  finite value (exact rational arithmetic; the engine works at magnitudes
  where IEEE doubles are exact enough that every comparison and rounding in
  the claims agrees with exact arithmetic), and `none` models a non-finite
  result (`NaN`, or `±Infinity`; within this program non-finite values only
  ever arise from division, as `0/0 = NaN` or as propagated `NaN`, because
  capacities are non-negative, so collapsing `NaN` and the infinities into
  one constructor loses nothing that the program can observe).
* Fields that provably never become non-finite are typed plainly as `ℚ`.
* `Math.round x` is `⌊x + 1/2⌋` (JavaScript rounds half-up, also for
  negative arguments), `Number(x.toFixed 2)` is rounding half-up at two
  decimals (JavaScript toFixed picks the larger candidate on a tie).
* The lexical primitives `parseInt` / `parseFloat` are abstracted as
  function parameters returning `Option` (with `none` for `NaN`); all
  parser theorems are proved for every choice of these primitives, and
  concrete instances are supplied where a concrete input is evaluated.
* React state updates become explicit arguments and results;
  `Date.now()` becomes an explicit `now : ℚ` argument (milliseconds).
-/

/-- A JavaScript number: `some q` is a finite value, `none` a non-finite
one (`NaN` or `±Infinity`). -/
abbrev JsNum := Option ℚ

/-- JavaScript `+` on two numbers: finite on finite operands, non-finite
as soon as one operand is non-finite. -/
def jadd : JsNum → JsNum → JsNum
  | some a, some b => some (a + b)
  | _, _ => none

/-- JavaScript binary `-`: finite on finite operands, otherwise non-finite. -/
def jsub : JsNum → JsNum → JsNum
  | some a, some b => some (a - b)
  | _, _ => none

/-- JavaScript `x * c` with a finite right factor `c`. -/
def jmulNum (a : JsNum) (c : ℚ) : JsNum :=
  a.map (fun x => x * c)

/-- JavaScript `x / b` with a finite denominator `b`: division by zero is
non-finite (`0/0 = NaN`, otherwise `±Infinity`), and a non-finite
numerator propagates. -/
def jdiv (a : JsNum) (b : ℚ) : JsNum :=
  a.bind (fun x => if b = 0 then none else some (x / b))

/-- JavaScript `a / b` with both operands JavaScript numbers, used only
where the program guards the denominator to be a finite positive value. -/
def jdivN : JsNum → JsNum → JsNum
  | some a, some b => if b = 0 then none else some (a / b)
  | _, _ => none

/-- `Math.round` on a finite value: half-up rounding, `⌊q + 1/2⌋`. -/
def jroundQ (q : ℚ) : ℚ :=
  ((⌊q + 1/2⌋ : ℤ) : ℚ)

/-- `Math.round` on a JavaScript number (`Math.round NaN = NaN`,
`Math.round (±Infinity) = ±Infinity`). -/
def jround (a : JsNum) : JsNum :=
  a.map jroundQ

/-- `Math.min(t, c, r)` with a finite middle argument, as used in the
proportional allocation pass; `NaN` operands make the result `NaN`. -/
def jmin3 (t : JsNum) (c : ℚ) (r : JsNum) : JsNum :=
  match t, r with
  | some t, some r => some (min (min t c) r)
  | _, _ => none

/-- `Math.min(a, b)` on JavaScript numbers; a `NaN` operand gives `NaN`. -/
def jminN : JsNum → JsNum → JsNum
  | some a, some b => some (min a b)
  | _, _ => none

/-- The JavaScript comparison `c < a` as used in `if`-conditions: false
when `a` is `NaN`.  (Within this program a non-finite comparand is always
`NaN`, never an infinity.) -/
def jgtb (a : JsNum) (c : ℚ) : Bool :=
  match a with
  | some x => decide (c < x)
  | none => false

/-- The JavaScript comparison `a <= c` as used in the redistribution
pass break condition: false when `a` is `NaN`. -/
def jleb (a : JsNum) (c : ℚ) : Bool :=
  match a with
  | some x => decide (x ≤ c)
  | none => false

/-- Rounding half-up at two decimal places: `Number(x.toFixed 2)` for a
finite `x`. -/
def round2 (q : ℚ) : ℚ :=
  ((⌊q * 100 + 1/2⌋ : ℤ) : ℚ) / 100

/-- `Number(x.toFixed 2)` on a JavaScript number: `NaN.toFixed 2` is the
string "NaN", which `Number` turns back into `NaN` (similarly for the
infinities), so non-finite values stay non-finite. -/
def toFixed2 (a : JsNum) : JsNum :=
  a.map round2

/-- The JavaScript defaulting idiom `x || d` applied to a number `x`
(`NaN` and `0` are falsy, every other number truthy). -/
def jsOr (a : JsNum) (d : ℚ) : ℚ :=
  match a with
  | some q => if q = 0 then d else q
  | none => d

/-- The JavaScript defaulting idiom `x || d` for an integer-valued `x`
(result of `parseInt`): `NaN` and `0` fall back to `d`. -/
def jsOrZ (a : Option ℤ) (d : ℤ) : ℤ :=
  match a with
  | some n => if n = 0 then d else n
  | none => d

/-- SKU record (source interface EnhancedInventoryData). -/
structure EnhancedInventoryData where
  sku : String
  warehouse : String
  product_category : String
  current_stock : ℚ
  forecast_demand : ℚ
  actual_demand : ℚ
  production_capacity : ℚ
  unit_cost : ℚ
  holding_cost_rate : ℚ
  stockout_penalty : ℚ
  lead_time_days : ℚ
  shelf_life_days : ℚ
  is_festival_sensitive : Bool
deriving DecidableEq

/-- Factory capacity record (source interface ProductionConstraint). -/
structure ProductionConstraint where
  factory_location : String
  weekly_capacity : ℚ
  efficiency_rate : ℚ
  production_cost_per_unit : ℚ
deriving DecidableEq

/-- Supplier record (source interface Supplier). -/
structure Supplier where
  supplier_id : String
  material_type : String
  reliability_score : ℚ
  lead_time_days : ℚ
  moq : ℚ
  unit_price : ℚ
  quality_rating : ℚ
deriving DecidableEq

/-- Entry of the demandForecast array of the Festival Plan. -/
structure FestivalDemandEntry where
  sku : String
  baseDemand : ℚ
  festivalDemand : ℚ
  surgeFactor : ℚ
deriving DecidableEq

/-- Entry of the productionSchedule array of the Festival Plan. -/
structure FestivalScheduleEntry where
  factory : String
  weeklyCapacity : ℚ
  festivalCapacityNeeded : ℚ
  additionalShiftsRequired : ℚ
deriving DecidableEq

/-- Entry of the inventoryBuildup array of the Festival Plan. -/
structure FestivalBuildupEntry where
  sku : String
  currentStock : ℚ
  festivalRequirement : ℚ
  buildupNeeded : ℚ
  startDate : String
  targetDate : String
deriving DecidableEq

/-- The Festival Plan artifact produced by handleFestivalPlanning. -/
structure FestivalPlan where
  demandForecast : List FestivalDemandEntry
  productionSchedule : List FestivalScheduleEntry
  inventoryBuildup : List FestivalBuildupEntry
deriving DecidableEq

/-- Entry of the productionAllocation array of the optimizer.  allocatedDemand
and utilizationRate are JavaScript numbers because an unguarded division
can make them `NaN`. -/
structure ProductionAllocationEntry where
  factory : String
  allocatedDemand : JsNum
  capacity : ℚ
  utilizationRate : JsNum
deriving DecidableEq

/-- Entry of the inventoryOptimization array of the optimizer. -/
structure InventoryOptimizationEntry where
  sku : String
  warehouse : String
  currentStock : ℚ
  optimalInventory : ℚ
  safetyStock : ℚ
  reorderPoint : ℚ
  recommendation : String
deriving DecidableEq

/-- Entry of the procurementPlan array of the optimizer.  deliveryDate is the
epoch-millisecond instant `Date.now() + lead_time_days days` whose
calendar date the source renders with toLocaleDateString; instants on
distinct calendar days render as distinct strings. -/
structure ProcurementPlanEntry where
  supplierId : String
  materialType : String
  orderQuantity : ℚ
  totalCost : ℚ
  deliveryDate : ℚ
deriving DecidableEq

/-- The costAnalysis record of the optimizer.  The production-cost total (and
hence the grand total) can inherit a `NaN` allocation, so those two are
JavaScript numbers. -/
structure CostAnalysis where
  totalProductionCost : JsNum
  totalInventoryCost : ℚ
  totalProcurementCost : ℚ
  totalSupplyChainCost : JsNum
deriving DecidableEq

/-- The performanceMetrics record of the optimizer.  capacityUtilization and
costEfficiency can be `NaN`, so they are JavaScript numbers. -/
structure PerformanceMetrics where
  serviceLevel : ℚ
  inventoryTurnover : ℚ
  capacityUtilization : JsNum
  costEfficiency : JsNum
deriving DecidableEq

/-- The optimization result artifact. -/
structure OptimizationResult where
  productionAllocation : List ProductionAllocationEntry
  inventoryOptimization : List InventoryOptimizationEntry
  procurementPlan : List ProcurementPlanEntry
  costAnalysis : CostAnalysis
  performanceMetrics : PerformanceMetrics
deriving DecidableEq

/-- Demand Resolver (source getEffectiveDemand): the festival-adjusted
demand when the Festival Plan has an entry for this SKU (the first match,
via Array.find), otherwise the forecast demand of the SKU. -/
def getEffectiveDemand (festivalPlan : Option FestivalPlan)
    (item : EnhancedInventoryData) : ℚ :=
  match festivalPlan with
  | some plan =>
    match plan.demandForecast.find? (fun fd => fd.sku == item.sku) with
    | some festivalEntry => festivalEntry.festivalDemand
    | none => item.forecast_demand
  | none => item.forecast_demand

/-- Total weekly capacity over the factory set (source totalCapacity). -/
def totalWeeklyCapacity (productionConstraints : List ProductionConstraint) : ℚ :=
  (productionConstraints.map (fun f => f.weekly_capacity)).sum

/-- The scalar production requirement (source productionNeeded):
`max 0 (Σ Math.round(effectiveDemand * 1.2) - Σ current_stock)`. -/
def productionNeeded (inventoryData : List EnhancedInventoryData)
    (festivalPlan : Option FestivalPlan) : ℚ :=
  let totalCurrentStock := (inventoryData.map (fun item => item.current_stock)).sum
  let totalOptimalStock :=
    (inventoryData.map (fun item =>
      jroundQ (getEffectiveDemand festivalPlan item * 1.2))).sum
  max 0 (totalOptimalStock - totalCurrentStock)

/-- One step of the proportional pass of the Production Allocator: the
body of the productionAllocation map, threading remainingProduction. -/
def allocateFactory (needed totalCapacity : ℚ) (remainingProduction : JsNum)
    (factory : ProductionConstraint) : ProductionAllocationEntry × JsNum :=
  let capacityShare := jdiv (some factory.weekly_capacity) totalCapacity
  let targetAllocation := jround (jmulNum capacityShare needed)
  let actualAllocation := jmin3 targetAllocation factory.weekly_capacity remainingProduction
  ({ factory := factory.factory_location
     allocatedDemand := actualAllocation
     capacity := factory.weekly_capacity
     utilizationRate := toFixed2 (jmulNum (jdiv actualAllocation factory.weekly_capacity) 100) },
   jsub remainingProduction actualAllocation)

/-- The proportional pass over the whole factory list (source: the
productionConstraints.map with the mutable remainingProduction); returns
the allocation list and the final remainingProduction. -/
def allocateAll (needed totalCapacity : ℚ) (remainingProduction : JsNum) :
    List ProductionConstraint → List ProductionAllocationEntry × JsNum
  | [] => ([], remainingProduction)
  | factory :: rest =>
    let step := allocateFactory needed totalCapacity remainingProduction factory
    let restResult := allocateAll needed totalCapacity step.2 rest
    (step.1 :: restResult.1, restResult.2)

/-- The redistribution pass (source: the for-of loop over
productionAllocation run when remainingProduction > 0): each factory with
spare capacity absorbs `min spare remaining`; the loop breaks as soon as
the remainder is ≤ 0 (a `NaN` remainder never breaks, faithful to the
source test `<= 0`). -/
def redistribute :
    List ProductionAllocationEntry → JsNum → List ProductionAllocationEntry × JsNum
  | [], remainingProduction => ([], remainingProduction)
  | alloc :: rest, remainingProduction =>
    let spareCapacity := jsub (some alloc.capacity) alloc.allocatedDemand
    if jgtb spareCapacity 0 then
      let additional := jminN spareCapacity remainingProduction
      let newAllocated := jadd alloc.allocatedDemand additional
      let updated := { alloc with
        allocatedDemand := newAllocated
        utilizationRate := toFixed2 (jmulNum (jdiv newAllocated alloc.capacity) 100) }
      let remaining2 := jsub remainingProduction additional
      if jleb remaining2 0 then
        (updated :: rest, remaining2)
      else
        let restResult := redistribute rest remaining2
        (updated :: restResult.1, restResult.2)
    else
      let restResult := redistribute rest remainingProduction
      (alloc :: restResult.1, restResult.2)

/-- The sum of allocatedDemand over an allocation list (source: the
reduce computing totalAllocatedProduction). -/
def sumAllocatedDemand (allocs : List ProductionAllocationEntry) : JsNum :=
  allocs.foldl (fun sum alloc => jadd sum alloc.allocatedDemand) (some 0)

/-- The Optimizer (source handleSupplyChainOptimization): resolves
effective demand, runs the two allocation passes, and aggregates costs
and performance metrics.  `now` is the value of `Date.now()` at the
invocation, consumed only by the deliveryDate of procurementPlan. -/
def handleSupplyChainOptimization (inventoryData : List EnhancedInventoryData)
    (productionConstraints : List ProductionConstraint)
    (suppliers : List Supplier) (festivalPlan : Option FestivalPlan)
    (now : ℚ) : OptimizationResult :=
  let needed := productionNeeded inventoryData festivalPlan
  let totalCapacity := totalWeeklyCapacity productionConstraints
  let firstPass := allocateAll needed totalCapacity (some needed) productionConstraints
  let productionAllocation :=
    if jgtb firstPass.2 0 then (redistribute firstPass.1 firstPass.2).1 else firstPass.1
  let totalProductionCost := productionAllocation.foldl (fun sum alloc =>
    jadd sum (jmulNum alloc.allocatedDemand
      (match productionConstraints.find? (fun f => f.factory_location == alloc.factory) with
       | some factory => factory.production_cost_per_unit
       | none => 0))) (some 0)
  let totalInventoryCost := (inventoryData.map (fun item =>
    item.current_stock * item.unit_cost * item.holding_cost_rate)).sum
  let totalProcurementCost := (suppliers.map (fun supplier =>
    supplier.moq * supplier.unit_price)).sum
  let totalSupplyChainCost :=
    jadd (jadd totalProductionCost (some totalInventoryCost)) (some totalProcurementCost)
  let totalDemand := (inventoryData.map (getEffectiveDemand festivalPlan)).sum
  let totalFulfilled := (inventoryData.map (fun item =>
    min item.current_stock (getEffectiveDemand festivalPlan item))).sum
  let dynamicServiceLevel := if 0 < totalDemand then totalFulfilled / totalDemand * 100 else 100
  let totalInventory := (inventoryData.map (fun item => item.current_stock)).sum
  let dynamicInventoryTurnover := if 0 < totalInventory then totalDemand / totalInventory else 0
  let dynamicCostEfficiency :=
    if jgtb totalSupplyChainCost 0 then
      jmulNum (jdivN (some (totalDemand * 15)) totalSupplyChainCost) 100
    else some 0
  let totalAllocatedProduction := sumAllocatedDemand productionAllocation
  let actualCapacityUtilization :=
    toFixed2 (jmulNum (jdiv totalAllocatedProduction totalCapacity) 100)
  { productionAllocation := productionAllocation
    inventoryOptimization := inventoryData.map (fun item =>
      let effectiveDemand := getEffectiveDemand festivalPlan item
      { sku := item.sku
        warehouse := item.warehouse
        currentStock := item.current_stock
        optimalInventory := jroundQ (effectiveDemand * 1.2)
        safetyStock := jroundQ (effectiveDemand * 0.3)
        reorderPoint := jroundQ (effectiveDemand * 0.8)
        recommendation := if item.current_stock < effectiveDemand then "INCREASE" else "OPTIMIZE" })
    procurementPlan := suppliers.map (fun supplier =>
      { supplierId := supplier.supplier_id
        materialType := supplier.material_type
        orderQuantity := supplier.moq
        totalCost := supplier.moq * supplier.unit_price
        deliveryDate := now + supplier.lead_time_days * 86400000 })
    costAnalysis :=
      { totalProductionCost := toFixed2 totalProductionCost
        totalInventoryCost := round2 totalInventoryCost
        totalProcurementCost := round2 totalProcurementCost
        totalSupplyChainCost := toFixed2 totalSupplyChainCost }
    performanceMetrics :=
      { serviceLevel := round2 dynamicServiceLevel
        inventoryTurnover := round2 dynamicInventoryTurnover
        capacityUtilization := actualCapacityUtilization
        costEfficiency := toFixed2 dynamicCostEfficiency } }

/-- The Festival Planner (source handleFestivalPlanning).
festivalMultiplier is the state value after `Number(...)`, a JavaScript
number; the source defaults it through `|| 1.35`. -/
def handleFestivalPlanning (inventoryData : List EnhancedInventoryData)
    (productionConstraints : List ProductionConstraint)
    (festivalMultiplier : JsNum) : FestivalPlan :=
  let currentMultiplier := jsOr festivalMultiplier 1.35
  { demandForecast := inventoryData.map (fun item =>
      { sku := item.sku
        baseDemand := item.forecast_demand
        festivalDemand := jroundQ (item.forecast_demand *
          (if item.is_festival_sensitive then currentMultiplier else 1))
        surgeFactor := if item.is_festival_sensitive then currentMultiplier else 1 })
    productionSchedule := productionConstraints.map (fun constraint =>
      { factory := constraint.factory_location
        weeklyCapacity := constraint.weekly_capacity
        festivalCapacityNeeded := jroundQ (constraint.weekly_capacity * currentMultiplier)
        additionalShiftsRequired := 2 })
    inventoryBuildup := inventoryData.map (fun item =>
      { sku := item.sku
        currentStock := item.current_stock
        festivalRequirement := jroundQ (item.forecast_demand *
          (if item.is_festival_sensitive then currentMultiplier else 1))
        buildupNeeded := max 0 (jroundQ (item.forecast_demand *
          (if item.is_festival_sensitive then currentMultiplier else 1)) - item.current_stock)
        startDate := "2025-09-15"
        targetDate := "2025-10-01" }) }

/-- Entry of the warehousePerformance array of the Analysis Reporter. -/
structure WarehousePerformanceEntry where
  warehouse : String
  stockCoverage : ℚ
  serviceLevel : ℚ
deriving DecidableEq

/-- The per-warehouse aggregates of the Analysis Reporter (source: the
warehousePerformance map inside handleSupplyChainAnalysis): the three
fixed warehouse names, each aggregated over the SKUs whose warehouse
string equals that name. -/
def warehousePerformance (inventoryData : List EnhancedInventoryData) :
    List WarehousePerformanceEntry :=
  (["Delhi", "Mumbai", "Kolkata"] : List String).map (fun warehouse =>
    let warehouseItems := inventoryData.filter (fun item => item.warehouse == warehouse)
    let totalStock := (warehouseItems.map (fun item => item.current_stock)).sum
    let totalDemand := (warehouseItems.map (fun item => item.actual_demand)).sum
    { warehouse := warehouse
      stockCoverage := if 0 < totalDemand then round2 (totalStock / totalDemand) else 0
      serviceLevel := min 100 (if 0 < totalDemand
        then jroundQ (min totalStock totalDemand / totalDemand * 100) else 100) })

/-- Field access `values[k]` on a split CSV line: JavaScript yields
`undefined` past the end, which every consumer here treats exactly like
the empty string (falsy; `parseInt`, `parseFloat` give `NaN` on both;
trimming gives a non-"true" value on both). -/
def fieldAt (values : List String) (k : ℕ) : String :=
  values.getD k ""

/-- One parsed SKU record (source: the object pushed by parseCSVFile for
the line with 1-based index `i`). `pInt` and `pFloat` model the lexical
primitives `parseInt` and `parseFloat`, `none` standing for `NaN`. -/
def parseCSVLine (pInt : String → Option ℤ) (pFloat : String → Option ℚ)
    (i : ℕ) (values : List String) : EnhancedInventoryData :=
  { sku := if fieldAt values 0 = "" then "SKU-" ++ toString i else fieldAt values 0
    warehouse := if fieldAt values 1 = "" then "Delhi" else fieldAt values 1
    product_category := if fieldAt values 2 = "" then "Snacks" else fieldAt values 2
    current_stock := ((jsOrZ (pInt (fieldAt values 3)) 0 : ℤ) : ℚ)
    forecast_demand := ((jsOrZ (pInt (fieldAt values 4)) 0 : ℤ) : ℚ)
    actual_demand := ((jsOrZ (pInt (fieldAt values 5)) 0 : ℤ) : ℚ)
    production_capacity := ((jsOrZ (pInt (fieldAt values 6)) 0 : ℤ) : ℚ)
    unit_cost := jsOr (pFloat (fieldAt values 7)) 10
    holding_cost_rate := jsOr (pFloat (fieldAt values 8)) 0.25
    stockout_penalty := jsOr (pFloat (fieldAt values 9)) 50
    lead_time_days := ((jsOrZ (pInt (fieldAt values 10)) 7 : ℤ) : ℚ)
    shelf_life_days := ((jsOrZ (pInt (fieldAt values 11)) 90 : ℤ) : ℚ)
    is_festival_sensitive := (fieldAt values 12).trim.toLower == "true" }

/-- The parse loop of parseCSVFile: `for (i = 1; i < lines.length && i < 10; i++)`,
keeping a line exactly when it has at least as many fields as the header. -/
def parseCSVRows (pInt : String → Option ℤ) (pFloat : String → Option ℚ)
    (headers : List String) : ℕ → List (List String) → List EnhancedInventoryData
  | _, [] => []
  | i, values :: rest =>
    if 10 ≤ i then []
    else if headers.length ≤ values.length then
      parseCSVLine pInt pFloat i values :: parseCSVRows pInt pFloat headers (i + 1) rest
    else
      parseCSVRows pInt pFloat headers (i + 1) rest

/-- parseCSVFile on an already line- and comma-split text: `headers` is
`lines[0].split(",")`, `dataLines` the remaining lines, each split at
commas. -/
def parseCSVFile (pInt : String → Option ℤ) (pFloat : String → Option ℚ)
    (headers : List String) (dataLines : List (List String)) :
    List EnhancedInventoryData :=
  parseCSVRows pInt pFloat headers 1 dataLines

/-- Effect of handleFileUpload on the SKU collection: the freshly parsed
records replace the previous collection wholesale
(`setInventoryData(parsedData)` — the previous collection is discarded,
never appended to). -/
def handleFileUpload (previousInventoryData : List EnhancedInventoryData)
    (pInt : String → Option ℤ) (pFloat : String → Option ℚ)
    (headers : List String) (dataLines : List (List String)) :
    List EnhancedInventoryData :=
  parseCSVFile pInt pFloat headers dataLines

/-- Sample SKU record, the first default inventory row of the source. -/
def skuSample : EnhancedInventoryData :=
  ⟨"PC001", "Delhi", "Snacks", 10, 40, 60, 30, 15.5, 0.25, 50, 7, 90, true⟩

/-- Sample factory, the first default production constraint of the source. -/
def factorySample : ProductionConstraint := ⟨"Delhi", 100, 0.85, 12.3⟩

/-- A factory with zero weekly capacity (reachable through the capacity
editing UI). -/
def factoryZeroCap : ProductionConstraint := ⟨"Delhi", 0, 0.85, 12.3⟩

/-- A second factory with zero weekly capacity at a different location. -/
def factoryPuneZero : ProductionConstraint := ⟨"Pune", 0, 0.9, 11.9⟩

/-- Sample supplier, the first default supplier row of the source. -/
def supplierSample : Supplier := ⟨"SUP001", "flour", 0.92, 5, 500, 2.5, 8.5⟩

/-- Concrete parseInt model covering the strings appearing in the sample
line: each equation agrees with JavaScript parseInt on that string. -/
def pIntSample : String → Option ℤ := fun s =>
  if s = "5" then some 5 else if s = "0" then some 0 else if s = "7" then some 7
  else if s = "90" then some 90 else if s = "50" then some 50 else none

/-- Concrete parseFloat model covering the strings appearing in the sample
line: each equation agrees with JavaScript parseFloat on that string. -/
def pFloatSample : String → Option ℚ := fun s =>
  if s = "5" then some 5 else if s = "0" then some 0 else if s = "0.25" then some 0.25
  else if s = "50" then some 50 else if s = "7" then some 7
  else if s = "90" then some 90 else none

/-- The 13-field header row of the documented input schema. -/
def headersSample : List String :=
  ["sku", "warehouse", "product_category", "current_stock", "forecast_demand", "actual_demand",
   "production_capacity", "unit_cost", "holding_cost_rate", "stockout_penalty", "lead_time_days",
   "shelf_life_days", "is_festival_sensitive"]

/-- A full data line whose unit_cost field is the parsable text "0". -/
def lineZeroUnitCost : List String :=
  ["A1", "Delhi", "Snacks", "5", "5", "5", "5", "0", "0.25", "50", "7", "90", "false"]

/-- Invariant tying a proportional-pass allocation entry to its factory:
capacity copied, allocation finite, non-negative and within capacity. -/
def AllocInv (al : ProductionAllocationEntry) (f : ProductionConstraint) : Prop :=
  al.capacity = f.weekly_capacity ∧
  ∃ a, al.allocatedDemand = some a ∧ 0 ≤ a ∧ a ≤ f.weekly_capacity

/-- Invariant tying a redistribution-pass output entry to its input entry:
capacity preserved, allocation finite, non-negative and within capacity. -/
def AllocInv2 (al2 al : ProductionAllocationEntry) : Prop :=
  al2.capacity = al.capacity ∧
  ∃ a, al2.allocatedDemand = some a ∧ 0 ≤ a ∧ a ≤ al2.capacity

lemma jadd_assoc (a b c : JsNum) : jadd (jadd a b) c = jadd a (jadd b c) := by
  cases a <;> cases b <;> cases c <;> simp [jadd, add_assoc]

lemma jadd_some_zero_left (x : JsNum) : jadd (some 0) x = x := by
  cases x <;> simp [jadd]

lemma jadd_some_zero_right (x : JsNum) : jadd x (some 0) = x := by
  cases x <;> simp [jadd]

lemma foldl_jadd_eq (l : List ProductionAllocationEntry) :
    ∀ x : JsNum, l.foldl (fun s al => jadd s al.allocatedDemand) x =
      jadd x (sumAllocatedDemand l) := by
  induction l with
  | nil => intro x; simp [sumAllocatedDemand, jadd_some_zero_right]
  | cons a l ih =>
    intro x
    have hS : sumAllocatedDemand (a :: l) = jadd a.allocatedDemand (sumAllocatedDemand l) := by
      unfold sumAllocatedDemand
      rw [List.foldl_cons, ih (jadd (some 0) a.allocatedDemand), jadd_some_zero_left]
      rfl
    rw [List.foldl_cons, ih (jadd x a.allocatedDemand), hS, jadd_assoc]

lemma sumAllocatedDemand_cons (a : ProductionAllocationEntry)
    (l : List ProductionAllocationEntry) :
    sumAllocatedDemand (a :: l) = jadd a.allocatedDemand (sumAllocatedDemand l) := by
  unfold sumAllocatedDemand
  rw [List.foldl_cons, foldl_jadd_eq l (jadd (some 0) a.allocatedDemand), jadd_some_zero_left]
  rfl

lemma jroundQ_nonneg {q : ℚ} (h : 0 ≤ q) : 0 ≤ jroundQ q := by
  unfold jroundQ
  have hfl : (0 : ℤ) ≤ ⌊q + 1/2⌋ := by
    apply Int.le_floor.mpr
    push_cast
    linarith
  exact_mod_cast hfl

lemma allocateAll_spec (needed totalCap : ℚ) (hN : 0 ≤ needed) (hT : 0 < totalCap) :
    ∀ (fs : List ProductionConstraint) (r : ℚ), 0 ≤ r →
    (∀ f ∈ fs, 0 ≤ f.weekly_capacity) →
    ∃ r1, (allocateAll needed totalCap (some r) fs).2 = some r1 ∧ 0 ≤ r1 ∧ r1 ≤ r ∧
      List.Forall₂ AllocInv (allocateAll needed totalCap (some r) fs).1 fs ∧
      sumAllocatedDemand (allocateAll needed totalCap (some r) fs).1 = some (r - r1) := by
  intro fs
  induction fs with
  | nil =>
    intro r hr _
    exact ⟨r, rfl, hr, le_refl r, List.Forall₂.nil, by simp [allocateAll, sumAllocatedDemand]⟩
  | cons f rest ih =>
    intro r hr hcap
    have hf : 0 ≤ f.weekly_capacity := hcap f (by simp)
    have hT0 : totalCap ≠ 0 := ne_of_gt hT
    have ht0 : 0 ≤ jroundQ (f.weekly_capacity / totalCap * needed) :=
      jroundQ_nonneg (mul_nonneg (div_nonneg hf (le_of_lt hT)) hN)
    have ha0 : 0 ≤ min (min (jroundQ (f.weekly_capacity / totalCap * needed)) f.weekly_capacity) r :=
      le_min (le_min ht0 hf) hr
    have hacap : min (min (jroundQ (f.weekly_capacity / totalCap * needed)) f.weekly_capacity) r ≤
        f.weekly_capacity := le_trans (min_le_left _ _) (min_le_right _ _)
    have har : min (min (jroundQ (f.weekly_capacity / totalCap * needed)) f.weekly_capacity) r ≤ r :=
      min_le_right _ _
    have hunfold : allocateAll needed totalCap (some r) (f :: rest) =
        ({ factory := f.factory_location
           allocatedDemand := some (min (min (jroundQ (f.weekly_capacity / totalCap * needed))
             f.weekly_capacity) r)
           capacity := f.weekly_capacity
           utilizationRate := toFixed2 (jmulNum (jdiv (some (min (min
             (jroundQ (f.weekly_capacity / totalCap * needed)) f.weekly_capacity) r))
             f.weekly_capacity) 100) } ::
          (allocateAll needed totalCap (some (r - min (min
            (jroundQ (f.weekly_capacity / totalCap * needed)) f.weekly_capacity) r)) rest).1,
         (allocateAll needed totalCap (some (r - min (min
           (jroundQ (f.weekly_capacity / totalCap * needed)) f.weekly_capacity) r)) rest).2) := by
      simp [allocateAll, allocateFactory, jdiv, jmulNum, jround, jmin3, jsub, hT0]
    obtain ⟨r1, h1, h2, h3, h4, h5⟩ := ih
      (r - min (min (jroundQ (f.weekly_capacity / totalCap * needed)) f.weekly_capacity) r)
      (by linarith) (fun g hg => hcap g (List.mem_cons_of_mem f hg))
    rw [hunfold]
    refine ⟨r1, h1, h2, by linarith, ?_, ?_⟩
    · exact List.Forall₂.cons ⟨rfl, _, rfl, ha0, hacap⟩ h4
    · rw [sumAllocatedDemand_cons, h5]
      simp only [jadd]
      congr 1
      ring
lemma redistribute_spec :
    ∀ (l : List ProductionAllocationEntry) (r : ℚ), 0 < r →
    (∀ al ∈ l, ∃ a, al.allocatedDemand = some a ∧ 0 ≤ a ∧ a ≤ al.capacity) →
    ∃ r2, (redistribute l (some r)).2 = some r2 ∧ 0 ≤ r2 ∧ r2 ≤ r ∧
      List.Forall₂ AllocInv2 (redistribute l (some r)).1 l ∧
      sumAllocatedDemand (redistribute l (some r)).1 =
        jadd (sumAllocatedDemand l) (some (r - r2)) ∧
      (0 < r2 → ∀ al2 ∈ (redistribute l (some r)).1,
        al2.allocatedDemand = some al2.capacity) := by
  intro l
  induction l with
  | nil =>
    intro r hr _
    refine ⟨r, rfl, le_of_lt hr, le_refl r, List.Forall₂.nil, ?_, ?_⟩
    · simp [redistribute, sumAllocatedDemand, jadd]
    · intro _ al2 h
      simp [redistribute] at h
  | cons al l ih =>
    intro r hr hmem
    obtain ⟨a, hal, ha0, hac⟩ := hmem al (List.mem_cons_self al l)
    have hmemT : ∀ al2 ∈ l, ∃ a2, al2.allocatedDemand = some a2 ∧ 0 ≤ a2 ∧ a2 ≤ al2.capacity :=
      fun al2 h2 => hmem al2 (List.mem_cons_of_mem al h2)
    by_cases hsp : 0 < al.capacity - a
    · have hd0 : 0 < min (al.capacity - a) r := lt_min hsp hr
      have hdr : min (al.capacity - a) r ≤ r := min_le_right _ _
      have hdca : min (al.capacity - a) r ≤ al.capacity - a := min_le_left _ _
      by_cases hr2 : r - min (al.capacity - a) r ≤ 0
      · -- the remainder is exhausted here and the loop breaks
        have hunfold : redistribute (al :: l) (some r) =
            ({ al with
                allocatedDemand := some (a + min (al.capacity - a) r)
                utilizationRate := toFixed2 (jmulNum (jdiv (some (a + min (al.capacity - a) r))
                  al.capacity) 100) } :: l,
             some (r - min (al.capacity - a) r)) := by
          simp [redistribute, hal, jsub, jgtb, jminN, jadd, jleb, hsp, hr2]
        rw [hunfold]
        refine ⟨r - min (al.capacity - a) r, rfl, by linarith, by linarith, ?_, ?_, ?_⟩
        · refine List.Forall₂.cons ⟨rfl, a + min (al.capacity - a) r, rfl, by linarith, ?_⟩ ?_
          · show a + min (al.capacity - a) r ≤ al.capacity
            linarith
          · exact List.forall₂_same.mpr (fun al2 h2 => ⟨rfl, hmemT al2 h2⟩)
        · rw [sumAllocatedDemand_cons, sumAllocatedDemand_cons, hal]
          cases hS : sumAllocatedDemand l with
          | none => simp [jadd]
          | some s =>
            simp only [jadd]
            congr 1
            ring
        · intro hp
          exfalso
          linarith
      · -- the head factory is filled to capacity and the loop continues
        have hdval : min (al.capacity - a) r = al.capacity - a := by
          rcases min_cases (al.capacity - a) r with ⟨he, _⟩ | ⟨he, hlt⟩
          · exact he
          · exfalso
            rw [he] at hr2
            simp at hr2
        obtain ⟨r2, g1, g2, g3, g4, g5, g6⟩ := ih (r - min (al.capacity - a) r)
          (by linarith [not_le.mp hr2]) hmemT
        have hunfold : redistribute (al :: l) (some r) =
            ({ al with
                allocatedDemand := some (a + min (al.capacity - a) r)
                utilizationRate := toFixed2 (jmulNum (jdiv (some (a + min (al.capacity - a) r))
                  al.capacity) 100) } ::
              (redistribute l (some (r - min (al.capacity - a) r))).1,
             (redistribute l (some (r - min (al.capacity - a) r))).2) := by
          simp [redistribute, hal, jsub, jgtb, jminN, jadd, jleb, hsp, hr2]
        rw [hunfold]
        refine ⟨r2, g1, g2, by linarith, ?_, ?_, ?_⟩
        · refine List.Forall₂.cons ⟨rfl, a + min (al.capacity - a) r, rfl, by linarith, ?_⟩ g4
          show a + min (al.capacity - a) r ≤ al.capacity
          linarith
        · rw [sumAllocatedDemand_cons, sumAllocatedDemand_cons, hal, g5]
          cases hS : sumAllocatedDemand l with
          | none => simp [jadd]
          | some s =>
            simp only [jadd]
            congr 1
            ring
        · intro hp al2 h2
          rcases List.mem_cons.mp h2 with rfl | h2
          · show some (a + min (al.capacity - a) r) = some al.capacity
            rw [hdval]
            congr 1
            ring
          · exact g6 hp al2 h2
    · -- no spare capacity: the head entry is already at capacity
      have haeq : a = al.capacity := by
        have : al.capacity - a ≤ 0 := not_lt.mp hsp
        linarith
      obtain ⟨r2, g1, g2, g3, g4, g5, g6⟩ := ih r hr hmemT
      have hunfold : redistribute (al :: l) (some r) =
          (al :: (redistribute l (some r)).1, (redistribute l (some r)).2) := by
        simp [redistribute, hal, jsub, jgtb, hsp]
      rw [hunfold]
      refine ⟨r2, g1, g2, g3, ?_, ?_, ?_⟩
      · exact List.Forall₂.cons ⟨rfl, a, hal, ha0, haeq.le⟩ g4
      · rw [sumAllocatedDemand_cons, sumAllocatedDemand_cons, g5, hal]
        cases hS : sumAllocatedDemand l with
        | none => simp [jadd]
        | some s =>
          simp only [jadd]
          congr 1
          ring
      · intro hp al2 h2
        rcases List.mem_cons.mp h2 with rfl | h2
        · rw [hal, haeq]
        · exact g6 hp al2 h2

lemma forall2_comp {α β γ : Type} {R : α → β → Prop} {S : β → γ → Prop} {T : α → γ → Prop}
    (h : ∀ a b c, R a b → S b c → T a c) :
    ∀ {l1 : List α} {l2 : List β} {l3 : List γ},
      List.Forall₂ R l1 l2 → List.Forall₂ S l2 l3 → List.Forall₂ T l1 l3 := by
  intro l1 l2 l3 h12
  induction h12 generalizing l3 with
  | nil =>
    intro h23
    cases h23
    exact List.Forall₂.nil
  | cons hab htail ih =>
    intro h23
    cases h23 with
    | cons hbc h23t => exact List.Forall₂.cons (h _ _ _ hab hbc) (ih h23t)

lemma forall2_mem_left {α β : Type} {R : α → β → Prop} :
    ∀ {l1 : List α} {l2 : List β}, List.Forall₂ R l1 l2 → ∀ a ∈ l1, ∃ b, R a b := by
  intro l1 l2 h
  induction h with
  | nil => intro a ha; cases ha
  | cons hab _ ih =>
    intro a ha
    rcases List.mem_cons.mp ha with rfl | ha
    · exact ⟨_, hab⟩
    · exact ih a ha

lemma sumAlloc_le_totalCap :
    ∀ {l : List ProductionAllocationEntry} {fs : List ProductionConstraint},
    List.Forall₂ AllocInv l fs → ∀ s, sumAllocatedDemand l = some s →
    s ≤ totalWeeklyCapacity fs := by
  intro l fs h
  induction h with
  | nil =>
    intro s hs
    simp [sumAllocatedDemand] at hs
    simp [totalWeeklyCapacity, ← hs]
  | cons hd _ ih =>
    intro s hs
    obtain ⟨hcap, a, hal, ha0, hac⟩ := hd
    rw [sumAllocatedDemand_cons, hal] at hs
    cases hS : sumAllocatedDemand _ with
    | none => rw [hS] at hs; simp [jadd] at hs
    | some s2 =>
      rw [hS] at hs
      simp only [jadd, Option.some_inj] at hs
      have := ih s2 hS
      simp only [totalWeeklyCapacity, List.map_cons, List.sum_cons]
      have h2 : s = a + s2 := hs.symm
      simp only [totalWeeklyCapacity] at this
      linarith

lemma sumAlloc_eq_totalCap :
    ∀ {l : List ProductionAllocationEntry} {fs : List ProductionConstraint},
    List.Forall₂ AllocInv l fs → (∀ al ∈ l, al.allocatedDemand = some al.capacity) →
    sumAllocatedDemand l = some (totalWeeklyCapacity fs) := by
  intro l fs h
  induction h with
  | nil =>
    intro _
    simp [sumAllocatedDemand, totalWeeklyCapacity]
  | cons hd _ ih =>
    intro hfull
    obtain ⟨hcap, a, hal, ha0, hac⟩ := hd
    rw [sumAllocatedDemand_cons, ih (fun al2 h2 => hfull al2 (List.mem_cons_of_mem _ h2)),
      hfull _ (List.mem_cons_self _ _), hcap]
    simp [jadd, totalWeeklyCapacity]

lemma optimizer_productionAllocation (data : List EnhancedInventoryData)
    (cs : List ProductionConstraint) (ss : List Supplier)
    (plan : Option FestivalPlan) (t : ℚ) :
    (handleSupplyChainOptimization data cs ss plan t).productionAllocation =
      (if jgtb (allocateAll (productionNeeded data plan) (totalWeeklyCapacity cs)
          (some (productionNeeded data plan)) cs).2 0 then
        (redistribute
          (allocateAll (productionNeeded data plan) (totalWeeklyCapacity cs)
            (some (productionNeeded data plan)) cs).1
          (allocateAll (productionNeeded data plan) (totalWeeklyCapacity cs)
            (some (productionNeeded data plan)) cs).2).1
      else
        (allocateAll (productionNeeded data plan) (totalWeeklyCapacity cs)
          (some (productionNeeded data plan)) cs).1) := rfl

lemma parseCSVRows_take (pI : String → Option ℤ) (pF : String → Option ℚ)
    (headers : List String) :
    ∀ (d : List (List String)) (i : ℕ),
      parseCSVRows pI pF headers i d = parseCSVRows pI pF headers i (d.take (10 - i)) := by
  intro d
  induction d with
  | nil => intro i; simp
  | cons v rest ih =>
    intro i
    by_cases h : 10 ≤ i
    · have h0 : 10 - i = 0 := by omega
      simp [parseCSVRows, h, h0]
    · have hk : 10 - i = (10 - (i + 1)) + 1 := by omega
      rw [hk]
      simp only [List.take_succ_cons]
      by_cases hl : headers.length ≤ v.length
      · simp only [parseCSVRows, h, if_neg h, if_pos hl]
        rw [ih (i + 1)]
      · simp only [parseCSVRows, h, if_neg h, if_neg hl]
        rw [ih (i + 1)]

lemma parseCSVRows_length (pI : String → Option ℤ) (pF : String → Option ℚ)
    (headers : List String) :
    ∀ (d : List (List String)) (i : ℕ), (parseCSVRows pI pF headers i d).length ≤ 10 - i := by
  intro d
  induction d with
  | nil => intro i; simp [parseCSVRows]
  | cons v rest ih =>
    intro i
    by_cases h : 10 ≤ i
    · simp [parseCSVRows, h]
    · by_cases hl : headers.length ≤ v.length
      · simp only [parseCSVRows, if_neg h, if_pos hl, List.length_cons]
        have := ih (i + 1)
        omega
      · simp only [parseCSVRows, if_neg h, if_neg hl]
        have := ih (i + 1)
        omega

/-- C1: the Demand Resolver returns the festivalDemand of the matching
Festival Plan entry when one exists and the forecast demand otherwise, and
the inventory-policy output under a plan equals the output obtained by
substituting the resolved effective demand for forecast_demand and
removing the plan. -/
theorem effective_demand_precedence :
    (∀ (p : FestivalPlan) (item : EnhancedInventoryData) (e : FestivalDemandEntry),
      p.demandForecast.find? (fun fd => fd.sku == item.sku) = some e →
      getEffectiveDemand (some p) item = e.festivalDemand) ∧
    (∀ (p : FestivalPlan) (item : EnhancedInventoryData),
      p.demandForecast.find? (fun fd => fd.sku == item.sku) = none →
      getEffectiveDemand (some p) item = item.forecast_demand) ∧
    (∀ item, getEffectiveDemand none item = item.forecast_demand) ∧
    (∀ data cs ss plan t,
      (handleSupplyChainOptimization data cs ss plan t).inventoryOptimization =
      (handleSupplyChainOptimization (data.map (fun item =>
        { item with forecast_demand := getEffectiveDemand plan item })) cs ss none t).inventoryOptimization) := by
  refine ⟨?_, ?_, ?_, ?_⟩
  · intro p item e h
    simp [getEffectiveDemand, h]
  · intro p item h
    simp [getEffectiveDemand, h]
  · intro item
    simp [getEffectiveDemand]
  · intro data cs ss plan t
    simp only [handleSupplyChainOptimization, List.map_map]
    rfl

/-- C1 witness: a concrete plan entry for PC001 with festivalDemand 58
resolves to 58. -/
theorem effective_demand_precedence_witness :
    getEffectiveDemand (some ⟨[⟨"PC001", 40, 58, 1.45⟩], [], []⟩) skuSample = (58 : ℚ) := by
  have h := effective_demand_precedence.1 ⟨[⟨"PC001", 40, 58, 1.45⟩], [], []⟩ skuSample
    ⟨"PC001", 40, 58, 1.45⟩ (by simp [skuSample])
  simpa using h

/-- C2 counterexample: one factory with weekly capacity 0 makes the
proportional-pass share 0/0, so every allocation and their sum is NaN
(modelled none); the total allocated is not a rational number at all,
although P = 0 and total capacity = 0 would require Σ allocated = 0. -/
theorem allocation_conservation_cex :
    sumAllocatedDemand ((handleSupplyChainOptimization [] [factoryZeroCap] [] none 0).productionAllocation) = none ∧
    (¬ ∃ S : ℚ, sumAllocatedDemand
      ((handleSupplyChainOptimization [] [factoryZeroCap] [] none 0).productionAllocation) = some S) ∧
    productionNeeded [] none = 0 ∧
    totalWeeklyCapacity [factoryZeroCap] = 0 := by
  have h : sumAllocatedDemand
      ((handleSupplyChainOptimization [] [factoryZeroCap] [] none 0).productionAllocation) = none := by
    simp [handleSupplyChainOptimization, factoryZeroCap, sumAllocatedDemand, totalWeeklyCapacity,
      productionNeeded, allocateAll, allocateFactory, redistribute, jgtb, jdiv, jmulNum, toFixed2,
      jadd, jsub, jmin3, jround]
  refine ⟨h, ?_, by simp [productionNeeded], by simp [totalWeeklyCapacity, factoryZeroCap]⟩
  rintro ⟨S, hS⟩
  rw [h] at hS
  exact Option.noConfusion hS

/-- C2 (amended): for factory sets that are empty or have positive total
weekly capacity (with non-negative per-factory capacities, the data-model
invariant), the allocation after both passes is a finite sum S with
0 ≤ S ≤ Σ weekly_capacity and S ≤ P, and S = P exactly whenever
Σ weekly_capacity ≥ P. -/
theorem allocation_conservation (data : List EnhancedInventoryData)
    (cs : List ProductionConstraint) (ss : List Supplier)
    (plan : Option FestivalPlan) (t : ℚ)
    (hcap : ∀ f ∈ cs, 0 ≤ f.weekly_capacity)
    (hpos : cs = [] ∨ 0 < totalWeeklyCapacity cs) :
    ∃ S, sumAllocatedDemand
        ((handleSupplyChainOptimization data cs ss plan t).productionAllocation) = some S ∧
      0 ≤ S ∧ S ≤ totalWeeklyCapacity cs ∧ S ≤ productionNeeded data plan ∧
      (productionNeeded data plan ≤ totalWeeklyCapacity cs →
        S = productionNeeded data plan) := by
  have hN : 0 ≤ productionNeeded data plan := le_max_left 0 _
  rw [optimizer_productionAllocation data cs ss plan t]
  rcases hpos with rfl | hT
  · -- empty factory set: both passes leave the empty allocation list
    refine ⟨0, ?_, le_refl 0, ?_, hN, ?_⟩
    · simp only [allocateAll]
      split
      · simp [redistribute, sumAllocatedDemand]
      · simp [sumAllocatedDemand]
    · simp [totalWeeklyCapacity]
    · intro hle
      have : totalWeeklyCapacity ([] : List ProductionConstraint) = 0 := by
        simp [totalWeeklyCapacity]
      rw [this] at hle
      linarith
  · obtain ⟨r1, h1, h2, h3, h4, h5⟩ := allocateAll_spec (productionNeeded data plan)
      (totalWeeklyCapacity cs) hN hT cs (productionNeeded data plan) hN hcap
    rw [h1]
    by_cases hg : 0 < r1
    · have hgt : jgtb (some r1) 0 = true := by simp [jgtb, hg]
      rw [hgt, if_pos rfl]
      have hmem2 : ∀ al ∈ (allocateAll (productionNeeded data plan) (totalWeeklyCapacity cs)
          (some (productionNeeded data plan)) cs).1,
          ∃ a, al.allocatedDemand = some a ∧ 0 ≤ a ∧ a ≤ al.capacity := by
        intro al hal
        obtain ⟨f, hf⟩ := forall2_mem_left h4 al hal
        obtain ⟨hc, a, had, h0, hle⟩ := hf
        exact ⟨a, had, h0, by rw [hc]; exact hle⟩
      obtain ⟨r2, g1, g2, g3, g4, g5, g6⟩ := redistribute_spec _ r1 hg hmem2
      have hcomb : List.Forall₂ AllocInv
          (redistribute (allocateAll (productionNeeded data plan) (totalWeeklyCapacity cs)
            (some (productionNeeded data plan)) cs).1 (some r1)).1 cs := by
        refine forall2_comp ?_ g4 h4
        rintro al2 al f ⟨hc2, a, had, h0, hle⟩ ⟨hc, _⟩
        exact ⟨hc2.trans hc, a, had, h0, by rw [← hc, ← hc2]; exact hle⟩
      have hsum : sumAllocatedDemand
          (redistribute (allocateAll (productionNeeded data plan) (totalWeeklyCapacity cs)
            (some (productionNeeded data plan)) cs).1 (some r1)).1 =
          some (productionNeeded data plan - r2) := by
        rw [g5, h5]
        simp only [jadd]
        congr 1
        ring
      refine ⟨productionNeeded data plan - r2, hsum, by linarith, ?_, by linarith, ?_⟩
      · exact sumAlloc_le_totalCap hcomb _ hsum
      · intro hle
        have hr20 : r2 = 0 := by
          by_contra hne
          have hr2p : 0 < r2 := lt_of_le_of_ne g2 (Ne.symm hne)
          have hfull := g6 hr2p
          have heq := sumAlloc_eq_totalCap hcomb hfull
          rw [hsum] at heq
          have : productionNeeded data plan - r2 = totalWeeklyCapacity cs :=
            Option.some_inj.mp heq
          linarith
        rw [hr20]
        ring
    · have hr1 : r1 = 0 := le_antisymm (not_lt.mp hg) h2
      have hgt : jgtb (some r1) 0 = false := by simp [jgtb, hg]
      rw [hgt]
      simp only [Bool.false_eq_true, if_false]
      subst hr1
      have hsum : sumAllocatedDemand (allocateAll (productionNeeded data plan)
          (totalWeeklyCapacity cs) (some (productionNeeded data plan)) cs).1 =
          some (productionNeeded data plan) := by
        rw [h5]
        ring_nf
      exact ⟨productionNeeded data plan, hsum, hN,
        sumAlloc_le_totalCap h4 _ hsum, le_refl _, fun _ => rfl⟩

/-- C2 witness: the conservation theorem applied to the default sample
SKU and the 100-capacity sample factory. -/
theorem allocation_conservation_witness :
    ∃ S, sumAllocatedDemand
        ((handleSupplyChainOptimization [skuSample] [factorySample] [] none 0).productionAllocation) = some S ∧
      0 ≤ S ∧ S ≤ totalWeeklyCapacity [factorySample] ∧
      S ≤ productionNeeded [skuSample] none ∧
      (productionNeeded [skuSample] none ≤ totalWeeklyCapacity [factorySample] →
        S = productionNeeded [skuSample] none) :=
  allocation_conservation [skuSample] [factorySample] [] none 0
    (by intro f hf; simp [factorySample] at hf; rw [hf]; norm_num)
    (Or.inr (by norm_num [totalWeeklyCapacity, factorySample]))

/-- C3: the reported capacityUtilization is computed as
Number(((Σ allocated / Σ capacity) * 100).toFixed(2)) without a zero
guard, so a run with total weekly capacity 0 (empty factory set, or a
zero-capacity factory) yields NaN (modelled none), not the 0 required by
the specification. -/
theorem capacity_utilization_zero_guard_missing :
    totalWeeklyCapacity [] = 0 ∧
    (handleSupplyChainOptimization [] [] [] none 0).performanceMetrics.capacityUtilization = none ∧
    totalWeeklyCapacity [factoryZeroCap] = 0 ∧
    (handleSupplyChainOptimization [] [factoryZeroCap] [] none 0).performanceMetrics.capacityUtilization = none := by
  refine ⟨rfl, ?_, by simp [totalWeeklyCapacity, factoryZeroCap], ?_⟩
  · simp [handleSupplyChainOptimization, sumAllocatedDemand, totalWeeklyCapacity, productionNeeded,
      allocateAll, jgtb, jdiv, jmulNum, toFixed2, jadd]
  · simp [handleSupplyChainOptimization, factoryZeroCap, sumAllocatedDemand, totalWeeklyCapacity,
      productionNeeded, allocateAll, allocateFactory, redistribute, jgtb, jdiv, jmulNum, toFixed2,
      jadd, jsub, jmin3, jround]

/-- C4: each inventoryOptimization entry carries
optimalInventory = round(d*1.2), safetyStock = round(d*0.3),
reorderPoint = round(d*0.8) for the resolved effective demand d, and
recommendation is INCREASE exactly when current_stock < d. -/
theorem inventory_policy_calculator (data : List EnhancedInventoryData)
    (cs : List ProductionConstraint) (ss : List Supplier)
    (plan : Option FestivalPlan) (t : ℚ) (i : ℕ) (h : i < data.length) :
    ((handleSupplyChainOptimization data cs ss plan t).inventoryOptimization)[i]? =
      some { sku := data[i].sku
             warehouse := data[i].warehouse
             currentStock := data[i].current_stock
             optimalInventory := ((⌊getEffectiveDemand plan data[i] * 1.2 + 1/2⌋ : ℤ) : ℚ)
             safetyStock := ((⌊getEffectiveDemand plan data[i] * 0.3 + 1/2⌋ : ℤ) : ℚ)
             reorderPoint := ((⌊getEffectiveDemand plan data[i] * 0.8 + 1/2⌋ : ℤ) : ℚ)
             recommendation := if data[i].current_stock < getEffectiveDemand plan data[i]
               then "INCREASE" else "OPTIMIZE" } ∧
    (((handleSupplyChainOptimization data cs ss plan t).inventoryOptimization)[i]?.map
        (fun e => e.recommendation) = some "INCREASE" ↔
      data[i].current_stock < getEffectiveDemand plan data[i]) := by
  have hmap : (handleSupplyChainOptimization data cs ss plan t).inventoryOptimization =
      data.map (fun item =>
        let effectiveDemand := getEffectiveDemand plan item
        { sku := item.sku
          warehouse := item.warehouse
          currentStock := item.current_stock
          optimalInventory := jroundQ (effectiveDemand * 1.2)
          safetyStock := jroundQ (effectiveDemand * 0.3)
          reorderPoint := jroundQ (effectiveDemand * 0.8)
          recommendation := if item.current_stock < effectiveDemand then "INCREASE" else "OPTIMIZE" }) := rfl
  rw [hmap]
  constructor
  · simp [List.getElem?_map, List.getElem?_eq_getElem h, jroundQ]
  · simp only [List.getElem?_map, List.getElem?_eq_getElem h, Option.map_some]
    by_cases hc : data[i].current_stock < getEffectiveDemand plan data[i]
    · simp [hc]
    · simp [hc]

/-- C4 witness: the sample SKU with no plan (d = 40) yields 48/12/32 and
INCREASE. -/
theorem inventory_policy_calculator_witness :
    ((handleSupplyChainOptimization [skuSample] [] [] none 0).inventoryOptimization)[0]? =
      some { sku := "PC001", warehouse := "Delhi", currentStock := 10, optimalInventory := 48,
             safetyStock := 12, reorderPoint := 32, recommendation := "INCREASE" } ∧
    (((handleSupplyChainOptimization [skuSample] [] [] none 0).inventoryOptimization)[0]?.map
        (fun e => e.recommendation) = some "INCREASE") := by
  have h := inventory_policy_calculator [skuSample] [] [] none 0 0 (by simp)
  constructor
  · rw [h.1]
    simp [skuSample, getEffectiveDemand]
    norm_num [Int.floor_eq_iff]
  · rw [(h.2).mpr (by simp [skuSample, getEffectiveDemand]; norm_num)]

/-- C5: a zero-capacity factory in a positive-total-capacity set receives
allocated = 0, but its utilizationRate is computed as
Number(((0/0) * 100).toFixed(2)) = NaN (modelled none), not the guarded
0 required by the specification. -/
theorem utilization_rate_zero_guard_missing :
    ((handleSupplyChainOptimization [] [factorySample, factoryPuneZero] [] none 0).productionAllocation)[1]? =
      some { factory := "Pune", allocatedDemand := some 0, capacity := 0, utilizationRate := none } := by
  simp [handleSupplyChainOptimization, factorySample, factoryPuneZero, sumAllocatedDemand,
    totalWeeklyCapacity, productionNeeded, allocateAll, allocateFactory, redistribute, jgtb,
    jdiv, jmulNum, toFixed2, jadd, jsub, jmin3, jround, jroundQ, round2]
  norm_num

/-- C6: each Festival Plan entry has surgeFactor = m for festival-sensitive
SKUs and 1 otherwise, festivalDemand = round(forecast * surgeFactor),
buildupNeeded = max 0 (festivalDemand - current_stock), and each factory
schedule entry has festivalCapacityNeeded = round(weekly_capacity * m)
with a constant additional-shift count of 2. -/
theorem festival_planner (data : List EnhancedInventoryData)
    (cs : List ProductionConstraint) (fm : JsNum) :
    (handleFestivalPlanning data cs fm).demandForecast = data.map (fun item =>
      { sku := item.sku
        baseDemand := item.forecast_demand
        festivalDemand := ((⌊item.forecast_demand *
          (if item.is_festival_sensitive then jsOr fm 1.35 else 1) + 1/2⌋ : ℤ) : ℚ)
        surgeFactor := if item.is_festival_sensitive then jsOr fm 1.35 else 1 }) ∧
    (∀ e ∈ (handleFestivalPlanning data cs fm).demandForecast,
      e.festivalDemand = jroundQ (e.baseDemand * e.surgeFactor)) ∧
    (handleFestivalPlanning data cs fm).productionSchedule = cs.map (fun c =>
      { factory := c.factory_location
        weeklyCapacity := c.weekly_capacity
        festivalCapacityNeeded := ((⌊c.weekly_capacity * jsOr fm 1.35 + 1/2⌋ : ℤ) : ℚ)
        additionalShiftsRequired := 2 }) ∧
    (∀ i, (h : i < data.length) → ∃ fd bu,
      (handleFestivalPlanning data cs fm).demandForecast[i]? = some fd ∧
      (handleFestivalPlanning data cs fm).inventoryBuildup[i]? = some bu ∧
      bu.sku = data[i].sku ∧ bu.currentStock = data[i].current_stock ∧
      bu.festivalRequirement = fd.festivalDemand ∧
      bu.buildupNeeded = max 0 (fd.festivalDemand - bu.currentStock)) := by
  refine ⟨?_, ?_, ?_, ?_⟩
  · simp [handleFestivalPlanning, jroundQ]
  · intro e he
    simp only [handleFestivalPlanning, List.mem_map] at he
    obtain ⟨item, _, rfl⟩ := he
    simp [jroundQ]
  · simp [handleFestivalPlanning, jroundQ]
  · intro i h
    have h1 : (handleFestivalPlanning data cs fm).demandForecast[i]? =
        some { sku := data[i].sku
               baseDemand := data[i].forecast_demand
               festivalDemand := jroundQ (data[i].forecast_demand *
                 (if data[i].is_festival_sensitive then jsOr fm 1.35 else 1))
               surgeFactor := if data[i].is_festival_sensitive then jsOr fm 1.35 else 1 } := by
      simp [handleFestivalPlanning, List.getElem?_map, List.getElem?_eq_getElem h]
    have h2 : (handleFestivalPlanning data cs fm).inventoryBuildup[i]? =
        some { sku := data[i].sku
               currentStock := data[i].current_stock
               festivalRequirement := jroundQ (data[i].forecast_demand *
                 (if data[i].is_festival_sensitive then jsOr fm 1.35 else 1))
               buildupNeeded := max 0 (jroundQ (data[i].forecast_demand *
                 (if data[i].is_festival_sensitive then jsOr fm 1.35 else 1)) - data[i].current_stock)
               startDate := "2025-09-15"
               targetDate := "2025-10-01" } := by
      simp [handleFestivalPlanning, List.getElem?_map, List.getElem?_eq_getElem h]
    exact ⟨_, _, h1, h2, rfl, rfl, rfl, rfl⟩

/-- C6 witness: the sample SKU with multiplier 1.45 gives the plan entry
festivalDemand = 58, and the buildup entry is linked as claimed. -/
theorem festival_planner_witness :
    (handleFestivalPlanning [skuSample] [factorySample] (some 1.45)).demandForecast =
      [{ sku := "PC001", baseDemand := 40, festivalDemand := 58, surgeFactor := 1.45 }] ∧
    (∃ fd bu,
      (handleFestivalPlanning [skuSample] [factorySample] (some 1.45)).demandForecast[0]? = some fd ∧
      (handleFestivalPlanning [skuSample] [factorySample] (some 1.45)).inventoryBuildup[0]? = some bu ∧
      bu.sku = "PC001" ∧ bu.currentStock = 10 ∧
      bu.festivalRequirement = fd.festivalDemand ∧
      bu.buildupNeeded = max 0 (fd.festivalDemand - bu.currentStock)) := by
  constructor
  · rw [(festival_planner [skuSample] [factorySample] (some 1.45)).1]
    simp [skuSample, jsOr]
    norm_num [Int.floor_eq_iff]
  · have h := (festival_planner [skuSample] [factorySample] (some 1.45)).2.2.2 0 (by simp)
    simpa [skuSample] using h

/-- C7 counterexample: two invocations of the Optimizer on the same
Record Store and Festival Plan but at different times produce different
procurementPlan values, because deliveryDate reads the invocation
instant. -/
theorem optimizer_time_dependence_cex :
    (handleSupplyChainOptimization [] [] [supplierSample] none 0).procurementPlan ≠
    (handleSupplyChainOptimization [] [] [supplierSample] none 172800000).procurementPlan := by
  simp [handleSupplyChainOptimization, supplierSample]

/-- C7 (amended): productionAllocation, inventoryOptimization,
costAnalysis and performanceMetrics are functions of the Record Store and
Festival Plan alone, as is procurementPlan except its deliveryDate field,
which equals invocation time + lead_time_days in milliseconds. -/
theorem optimizer_determinism (data : List EnhancedInventoryData)
    (cs : List ProductionConstraint) (ss : List Supplier)
    (plan : Option FestivalPlan) (t1 t2 : ℚ) :
    (handleSupplyChainOptimization data cs ss plan t1).productionAllocation =
      (handleSupplyChainOptimization data cs ss plan t2).productionAllocation ∧
    (handleSupplyChainOptimization data cs ss plan t1).inventoryOptimization =
      (handleSupplyChainOptimization data cs ss plan t2).inventoryOptimization ∧
    (handleSupplyChainOptimization data cs ss plan t1).costAnalysis =
      (handleSupplyChainOptimization data cs ss plan t2).costAnalysis ∧
    (handleSupplyChainOptimization data cs ss plan t1).performanceMetrics =
      (handleSupplyChainOptimization data cs ss plan t2).performanceMetrics ∧
    ((handleSupplyChainOptimization data cs ss plan t1).procurementPlan).map
        (fun e => (e.supplierId, e.materialType, e.orderQuantity, e.totalCost)) =
      ((handleSupplyChainOptimization data cs ss plan t2).procurementPlan).map
        (fun e => (e.supplierId, e.materialType, e.orderQuantity, e.totalCost)) ∧
    ((handleSupplyChainOptimization data cs ss plan t1).procurementPlan).map
        (fun e => e.deliveryDate) =
      ss.map (fun s => t1 + s.lead_time_days * 86400000) := by
  refine ⟨rfl, rfl, rfl, rfl, ?_, ?_⟩
  · simp only [handleSupplyChainOptimization, List.map_map]
    rfl
  · simp only [handleSupplyChainOptimization, List.map_map]
    rfl

/-- C8 counterexample: the unit_cost text "0" parses (parseFloat gives 0),
yet the record receives the default 10, because the source defaults
through the falsy-collapsing idiom parseFloat(x) || 10.0. -/
theorem parser_parsable_zero_cex :
    pFloatSample "0" = some 0 ∧
    (parseCSVFile pIntSample pFloatSample headersSample [lineZeroUnitCost]).map
      (fun r => r.unit_cost) = [10] ∧
    (10 : ℚ) ≠ 0 := by
  refine ⟨rfl, ?_, by norm_num⟩
  simp [parseCSVFile, parseCSVRows, parseCSVLine, headersSample, lineZeroUnitCost,
    pIntSample, pFloatSample, jsOr, jsOrZ, fieldAt]

/-- C8 (amended): a line with at least as many fields as the header
produces exactly one record and parsing never aborts; each numeric field
equals its parsed value when the text parses to a nonzero value and the
documented default when it is unparsable or parses to 0 (for the
fields whose default is 0 the two cases coincide); the boolean field is
true exactly when the trimmed, case-folded text is "true"; and empty
sku/warehouse/product_category default to a synthesized id, Delhi and
Snacks. -/
theorem parser_field_defaulting (pI : String → Option ℤ) (pF : String → Option ℚ)
    (headers : List String) (values : List String) (rest : List (List String)) (i : ℕ) :
    (headers.length ≤ values.length →
      (parseCSVFile pI pF headers (values :: rest)).head? =
        some (parseCSVLine pI pF 1 values)) ∧
    (values.length < headers.length →
      parseCSVFile pI pF headers (values :: rest) = parseCSVRows pI pF headers 2 rest) ∧
    ((parseCSVLine pI pF i values).current_stock = (((pI (fieldAt values 3)).getD 0 : ℤ) : ℚ)) ∧
    ((parseCSVLine pI pF i values).forecast_demand = (((pI (fieldAt values 4)).getD 0 : ℤ) : ℚ)) ∧
    ((parseCSVLine pI pF i values).actual_demand = (((pI (fieldAt values 5)).getD 0 : ℤ) : ℚ)) ∧
    ((parseCSVLine pI pF i values).production_capacity = (((pI (fieldAt values 6)).getD 0 : ℤ) : ℚ)) ∧
    (∀ q : ℚ, pF (fieldAt values 7) = some q → q ≠ 0 → (parseCSVLine pI pF i values).unit_cost = q) ∧
    (pF (fieldAt values 7) = none ∨ pF (fieldAt values 7) = some 0 →
      (parseCSVLine pI pF i values).unit_cost = 10) ∧
    (∀ q : ℚ, pF (fieldAt values 8) = some q → q ≠ 0 →
      (parseCSVLine pI pF i values).holding_cost_rate = q) ∧
    (pF (fieldAt values 8) = none ∨ pF (fieldAt values 8) = some 0 →
      (parseCSVLine pI pF i values).holding_cost_rate = 0.25) ∧
    (∀ q : ℚ, pF (fieldAt values 9) = some q → q ≠ 0 →
      (parseCSVLine pI pF i values).stockout_penalty = q) ∧
    (pF (fieldAt values 9) = none ∨ pF (fieldAt values 9) = some 0 →
      (parseCSVLine pI pF i values).stockout_penalty = 50) ∧
    (∀ n : ℤ, pI (fieldAt values 10) = some n → n ≠ 0 →
      (parseCSVLine pI pF i values).lead_time_days = (n : ℚ)) ∧
    (pI (fieldAt values 10) = none ∨ pI (fieldAt values 10) = some 0 →
      (parseCSVLine pI pF i values).lead_time_days = 7) ∧
    (∀ n : ℤ, pI (fieldAt values 11) = some n → n ≠ 0 →
      (parseCSVLine pI pF i values).shelf_life_days = (n : ℚ)) ∧
    (pI (fieldAt values 11) = none ∨ pI (fieldAt values 11) = some 0 →
      (parseCSVLine pI pF i values).shelf_life_days = 90) ∧
    ((parseCSVLine pI pF i values).is_festival_sensitive = true ↔
      (fieldAt values 12).trim.toLower = "true") ∧
    (fieldAt values 0 = "" → (parseCSVLine pI pF i values).sku = "SKU-" ++ toString i) ∧
    (fieldAt values 0 ≠ "" → (parseCSVLine pI pF i values).sku = fieldAt values 0) ∧
    (fieldAt values 1 = "" → (parseCSVLine pI pF i values).warehouse = "Delhi") ∧
    (fieldAt values 2 = "" → (parseCSVLine pI pF i values).product_category = "Snacks") := by
  refine ⟨?_, ?_, ?_, ?_, ?_, ?_, ?_, ?_, ?_, ?_, ?_, ?_, ?_, ?_, ?_, ?_, ?_, ?_, ?_, ?_, ?_⟩
  · intro h
    simp [parseCSVFile, parseCSVRows, h]
  · intro h
    simp [parseCSVFile, parseCSVRows, Nat.not_le.mpr h]
  · cases h : pI (fieldAt values 3) with
    | none => simp [parseCSVLine, jsOrZ, h]
    | some n =>
      by_cases hn : n = 0
      · simp [parseCSVLine, jsOrZ, h, hn]
      · simp [parseCSVLine, jsOrZ, h, hn]
  · cases h : pI (fieldAt values 4) with
    | none => simp [parseCSVLine, jsOrZ, h]
    | some n =>
      by_cases hn : n = 0
      · simp [parseCSVLine, jsOrZ, h, hn]
      · simp [parseCSVLine, jsOrZ, h, hn]
  · cases h : pI (fieldAt values 5) with
    | none => simp [parseCSVLine, jsOrZ, h]
    | some n =>
      by_cases hn : n = 0
      · simp [parseCSVLine, jsOrZ, h, hn]
      · simp [parseCSVLine, jsOrZ, h, hn]
  · cases h : pI (fieldAt values 6) with
    | none => simp [parseCSVLine, jsOrZ, h]
    | some n =>
      by_cases hn : n = 0
      · simp [parseCSVLine, jsOrZ, h, hn]
      · simp [parseCSVLine, jsOrZ, h, hn]
  · intro q h hq
    simp [parseCSVLine, jsOr, h, hq]
  · rintro (h | h) <;> simp [parseCSVLine, jsOr, h]
  · intro q h hq
    simp [parseCSVLine, jsOr, h, hq]
  · rintro (h | h) <;> simp [parseCSVLine, jsOr, h]
  · intro q h hq
    simp [parseCSVLine, jsOr, h, hq]
  · rintro (h | h) <;> simp [parseCSVLine, jsOr, h]
  · intro n h hn
    simp [parseCSVLine, jsOrZ, h, hn]
  · rintro (h | h) <;> simp [parseCSVLine, jsOrZ, h]
  · intro n h hn
    simp [parseCSVLine, jsOrZ, h, hn]
  · rintro (h | h) <;> simp [parseCSVLine, jsOrZ, h]
  · simp [parseCSVLine]
  · intro h
    simp [parseCSVLine, h]
  · intro h
    simp [parseCSVLine, h]
  · intro h
    simp [parseCSVLine, h]
  · intro h
    simp [parseCSVLine, h]

/-- C8 witness: the sample line is kept, its unit_cost text "0" falls back
to 10, its parsable stock and penalty fields keep their parsed values. -/
theorem parser_field_defaulting_witness :
    (parseCSVFile pIntSample pFloatSample headersSample [lineZeroUnitCost]).head? =
      some (parseCSVLine pIntSample pFloatSample 1 lineZeroUnitCost) ∧
    (parseCSVLine pIntSample pFloatSample 1 lineZeroUnitCost).unit_cost = 10 ∧
    (parseCSVLine pIntSample pFloatSample 1 lineZeroUnitCost).current_stock =
      (((pIntSample "5").getD 0 : ℤ) : ℚ) ∧
    (parseCSVLine pIntSample pFloatSample 1 lineZeroUnitCost).stockout_penalty = 50 := by
  have h := parser_field_defaulting pIntSample pFloatSample headersSample lineZeroUnitCost [] 1
  refine ⟨h.1 (by simp [headersSample, lineZeroUnitCost]), ?_, ?_, ?_⟩
  · exact h.2.2.2.2.2.2.2.1 (Or.inr (by simp [pFloatSample, lineZeroUnitCost, fieldAt]))
  · have hc := h.2.2.1
    simpa [lineZeroUnitCost, fieldAt] using hc
  · exact h.2.2.2.2.2.2.2.2.2.2.1 (50 : ℚ) (by simp [pFloatSample, lineZeroUnitCost, fieldAt])
      (by norm_num)

/-- C9: the parser reads at most the first 9 data lines (loop bound
i < 10), every later line is dropped, and the parsed result replaces the
previous SKU collection rather than appending to it. -/
theorem parser_row_cap :
    (∀ (pI : String → Option ℤ) (pF : String → Option ℚ) (headers : List String)
      (dataLines : List (List String)),
      parseCSVFile pI pF headers dataLines = parseCSVFile pI pF headers (dataLines.take 9)) ∧
    (∀ (pI : String → Option ℤ) (pF : String → Option ℚ) (headers : List String)
      (dataLines : List (List String)),
      (parseCSVFile pI pF headers dataLines).length ≤ 9) ∧
    (∀ (prev : List EnhancedInventoryData) (pI : String → Option ℤ) (pF : String → Option ℚ)
      (headers : List String) (dataLines : List (List String)),
      handleFileUpload prev pI pF headers dataLines = parseCSVFile pI pF headers dataLines) := by
  refine ⟨?_, ?_, ?_⟩
  · intro pI pF headers dataLines
    exact parseCSVRows_take pI pF headers dataLines 1
  · intro pI pF headers dataLines
    exact parseCSVRows_length pI pF headers dataLines 1
  · intro prev pI pF headers dataLines
    rfl

/-- C10: the per-warehouse performance list is exactly Delhi, Mumbai,
Kolkata in that order; a SKU with any other warehouse string is excluded
from every aggregate; and a listed warehouse with zero total demand
reports stockCoverage = 0 and serviceLevel = 100. -/
theorem warehouse_performance_fixed (data : List EnhancedInventoryData) :
    (warehousePerformance data).map (fun e => e.warehouse) = ["Delhi", "Mumbai", "Kolkata"] ∧
    (∀ (item : EnhancedInventoryData) (rest : List EnhancedInventoryData),
      item.warehouse ∉ (["Delhi", "Mumbai", "Kolkata"] : List String) →
      warehousePerformance (item :: rest) = warehousePerformance rest) ∧
    (∀ w, w ∈ (["Delhi", "Mumbai", "Kolkata"] : List String) →
      ((data.filter (fun it => it.warehouse == w)).map (fun it => it.actual_demand)).sum = 0 →
      ∃ e ∈ warehousePerformance data, e.warehouse = w ∧ e.stockCoverage = 0 ∧ e.serviceLevel = 100) := by
  refine ⟨?_, ?_, ?_⟩
  · simp [warehousePerformance]
  · intro item rest h
    unfold warehousePerformance
    apply List.map_congr_left
    intro w hw
    have hne : (item.warehouse == w) = false := by
      refine beq_eq_false_iff_ne.mpr ?_
      intro hEq
      exact h (hEq ▸ hw)
    simp [List.filter_cons, hne]
  · intro w hw hsum
    refine ⟨_, List.mem_map.mpr ⟨w, hw, rfl⟩, rfl, ?_, ?_⟩
    · simp only [hsum]
      norm_num
    · simp only [hsum]
      norm_num

/-- C10 witness: a Chennai SKU changes nothing, and on an empty SKU set
Delhi reports coverage 0 and service level 100. -/
theorem warehouse_performance_fixed_witness :
    warehousePerformance [⟨"X1", "Chennai", "Snacks", 1, 1, 1, 1, 1, 1, 1, 1, 1, false⟩] =
      warehousePerformance [] ∧
    (∃ e ∈ warehousePerformance ([] : List EnhancedInventoryData),
      e.warehouse = "Delhi" ∧ e.stockCoverage = 0 ∧ e.serviceLevel = 100) := by
  constructor
  · exact (warehouse_performance_fixed []).2.1
      ⟨"X1", "Chennai", "Snacks", 1, 1, 1, 1, 1, 1, 1, 1, 1, false⟩ [] (by simp)
  · exact (warehouse_performance_fixed []).2.2 "Delhi" (by simp) (by simp)
